import Mathlib

/-!
Verification of the Avatar Processing Service design against its templates.

The repository provides the data declarations (`AvatarJob` and its
constructors, `ModerationResponse`, service construction) in
`src/template.js` and `src/go/template.go`; the operation bodies
(`submitJob`, `getJobStatus`, `callModerationApi`,
`_generateMockAvatarUrl`) are TODO stubs, so those operations are
modelled from the design document (spec.md) and marked as such.

Machine integers do not occur; timestamps are modelled as `Nat` values
threaded explicitly (`now`), and the moderation collaborator is an
oracle function from the request to an HTTP-level outcome.
-/

/-- Embeds `ModerationResponse` (src/template.js lines 23–27 typedef:
`isApproved : boolean`, optional `reason`; src/go/template.go lines 56–59:
`IsApproved bool`, `Reason string` with `omitempty`, modelled as
`Option String`). -/
structure ModerationResponse where
  isApproved : Bool
  reason : Option String
deriving Repr, DecidableEq

/-- Embeds `AvatarJob` (src/template.js lines 32–51, src/go/template.go
lines 62–70): `id`, `userId`, `status` (a plain string; the enum
`pending, completed, failed, rejected` appears only in comments),
`inputData`, optional `outputUrl`, `createdAt` timestamp (as `Nat`),
optional `errorMessage`. -/
structure AvatarJob where
  id : String
  userId : String
  status : String
  inputData : String
  outputUrl : Option String
  createdAt : Nat
  errorMessage : Option String
deriving Repr, DecidableEq

/-- Embeds the `AvatarJob` JavaScript constructor (src/template.js lines
42–50): each field is copied from its argument; the trailing parameters
default to `null` (`none`) when not passed, and `createdAt` falls back to
the current time when the argument is `null`
(`this.createdAt = createdAt || new Date()`), with the current time
passed explicitly as `now`. No validation is performed on any field. -/
def AvatarJob.new (id userId status inputData : String)
    (outputUrl : Option String) (createdAt : Option Nat)
    (errorMessage : Option String) (now : Nat) : AvatarJob :=
  { id := id, userId := userId, status := status, inputData := inputData,
    outputUrl := outputUrl, createdAt := createdAt.getD now,
    errorMessage := errorMessage }

/-- Embeds `NewAvatarJob` (src/go/template.go lines 73–81): builds an
`AvatarJob` from `id`, `userID`, `status`, `inputData` with
`CreatedAt: time.Now()` (passed explicitly as `now`) and the optional
pointer fields `OutputURL`, `ErrorMessage` left nil. No validation is
performed on any field. -/
def NewAvatarJob (id userID status inputData : String) (now : Nat) : AvatarJob :=
  { id := id, userId := userID, status := status, inputData := inputData,
    outputUrl := none, createdAt := now, errorMessage := none }

/-- Models the request body of the moderation collaborator (spec §6 and
the header comments of both templates):
`{ content: string, user_id: string }`. -/
structure ModerationRequest where
  content : String
  user_id : String
deriving Repr, DecidableEq

/-- Models the body of an HTTP response from the moderation collaborator:
either the success shape `{ approved: boolean, reason?: string }`
(spec §6) or a body that fails to parse into that shape. -/
inductive ModerationBody where
  | wellFormed (approved : Bool) (reason : Option String)
  | malformed (raw : String)
deriving Repr, DecidableEq

/-- Models the HTTP-level outcome of one call to the moderation
collaborator: a response with a status code and body, a transport
error, or a timeout (spec §6 failure taxonomy). -/
inductive HttpResult where
  | response (code : Nat) (body : ModerationBody)
  | transportError (message : String)
  | timeout
deriving Repr, DecidableEq

/-- Embeds the error taxonomy surfaced by `submit` (spec §7):
`InvalidArgument` is the only error that prevents job creation. -/
inductive SubmitError where
  | invalidArgument
deriving Repr, DecidableEq

/-- Embeds `AvatarProcessingService` (src/template.js lines 53–64,
src/go/template.go lines 84–97): configuration `moderationApiUrl` and
`apiToken`. The storage left as a TODO in both templates is modelled
from the spec (§4.1 step 4, implementation notes: an in-memory map
`jobId -> AvatarJob`) as an association list, together with a counter
`nextId` backing the spec-modelled unique-id allocation. -/
structure ServiceState where
  moderationApiUrl : String
  apiToken : String
  jobs : List (String × AvatarJob)
  nextId : Nat
deriving Repr, DecidableEq

/-- Embeds the service constructor (src/template.js lines 60–64,
src/go/template.go lines 91–97): stores the endpoint URL and bearer
token; the spec-modelled storage starts empty and the id counter at 0. -/
def NewAvatarProcessingService (moderationApiUrl apiToken : String) : ServiceState :=
  { moderationApiUrl := moderationApiUrl, apiToken := apiToken,
    jobs := [], nextId := 0 }

/-- Modelled from the spec: unique job-id allocation (§4.1 step 1,
"Allocate a new unique `id`"); the allocation code is missing — both
`submitJob` bodies are TODO stubs (the JS notes suggest `randomUUID`).
Modelled as an opaque string indexed by the service's counter, injective
by construction so that ids never repeat within a process. -/
def freshId (n : Nat) : String :=
  String.mk (List.replicate (n + 1) 'j')

/-- Modelled from the spec: the body of `_generateMockAvatarUrl`
(src/template.js lines 117–119) and `generateMockAvatarURL`
(src/go/template.go lines 168–171) are TODO stubs. Per spec §4.1 step 2
and §9 ("a pure deterministic function of the job id", "a templated
reference string containing the id") and the templates' notes
("https://avatars.example.com/${jobId}.png"), the mock reference is a
function of the job id alone. -/
def generateMockAvatarUrl (jobId : String) : String :=
  "https://avatars.example.com/" ++ jobId ++ ".png"

/-- Modelled from the spec: the body of `callModerationApi`
(src/template.js lines 107–109) and `CallModerationAPI`
(src/go/template.go lines 154–157) are TODO stubs. Per spec §6: POST
`{ content, user_id }` to the collaborator; a success (2xx) response
whose body parses as `{ approved: boolean, reason?: string }` yields a
`ModerationResponse`; any non-success status, transport error, timeout,
or unparseable body is treated uniformly as a moderation failure with a
human-readable cause. The network is abstracted as the oracle `collab`. -/
def callModerationApi (s : ServiceState) (content userId : String)
    (collab : ModerationRequest → HttpResult) : Except String ModerationResponse :=
  match collab { content := content, user_id := userId } with
  | HttpResult.timeout => Except.error "moderation request timed out"
  | HttpResult.transportError e =>
      Except.error ("moderation transport error: " ++ e)
  | HttpResult.response code body =>
      if 200 ≤ code ∧ code < 300 then
        match body with
        | ModerationBody.wellFormed approved reason =>
            Except.ok { isApproved := approved, reason := reason }
        | ModerationBody.malformed _ =>
            Except.error "moderation response failed to parse"
      else
        Except.error ("moderation API returned status " ++ Nat.repr code)

/-- Modelled from the spec: the status update of `submitJob` (§4.1 step 3).
On collaborator success with `approved=true` the pending job becomes
`completed` keeping the generated reference; with `approved=false` it
becomes `rejected` keeping the reference, `errorMessage` set to the
provided reason (§8 scenario); on collaborator failure it becomes
`failed` with `errorMessage` set to the cause, the reference omitted
(the implementer's choice §4.1 allows). -/
def processedJob (pending : AvatarJob) (ref : String) :
    Except String ModerationResponse → AvatarJob
  | Except.ok r =>
      if r.isApproved then
        { pending with status := "completed", outputUrl := some ref }
      else
        { pending with
            status := "rejected", outputUrl := some ref,
            errorMessage := r.reason }
  | Except.error msg =>
      { pending with status := "failed", errorMessage := some msg }

/-- Modelled from the spec: the job a valid `submit` call resolves to
(§4.1 steps 1–3): allocate a fresh id, build the pending job
(`status=pending`, `createdAt=now`), generate the mock reference, invoke
the moderation collaborator with `(inputData, userId)`, and resolve the
terminal status via `processedJob`. -/
def finalJob (s : ServiceState) (userId inputData : String) (now : Nat)
    (collab : ModerationRequest → HttpResult) : AvatarJob :=
  processedJob
    (AvatarJob.new (freshId s.nextId) userId "pending" inputData none none none now)
    (generateMockAvatarUrl (freshId s.nextId))
    (callModerationApi s inputData userId collab)

/-- Modelled from the spec: the body of `submitJob` (src/template.js
lines 80–82) and `SubmitJob` (src/go/template.go lines 117–120) are TODO
stubs. Per spec §4.1: reject empty `userId` or `inputData` with
`InvalidArgument` before creating any state; otherwise build and resolve
the job (`finalJob`), persist it keyed by its id, and return it.
Downstream failures are absorbed into the job, never propagated. -/
def submitJob (s : ServiceState) (userId inputData : String) (now : Nat)
    (collab : ModerationRequest → HttpResult) :
    Except SubmitError AvatarJob × ServiceState :=
  if userId = "" ∨ inputData = "" then
    (Except.error SubmitError.invalidArgument, s)
  else
    (Except.ok (finalJob s userId inputData now collab),
      { s with
          nextId := s.nextId + 1,
          jobs := ((finalJob s userId inputData now collab).id,
            finalJob s userId inputData now collab) :: s.jobs })

/-- Modelled from the spec: the body of `getJobStatus` (src/template.js
lines 90–92) and `GetJobStatus` (src/go/template.go lines 132–135) are
TODO stubs. Per spec §4.1: a pure read of the stored job by id, `none`
(NotFound) when absent, with no side effects — the state is returned
unchanged. -/
def getJobStatus (s : ServiceState) (jobId : String) :
    Option AvatarJob × ServiceState :=
  (s.jobs.lookup jobId, s)

/-- One submission request of a run: the caller-supplied arguments, the
current time, and the collaborator's behaviour for this call. -/
structure SubmitCall where
  userId : String
  inputData : String
  now : Nat
  collab : ModerationRequest → HttpResult

/-- A sequence of `submitJob` calls threaded through the service state,
collecting each call's result. -/
def runSubmits : ServiceState → List SubmitCall →
    List (Except SubmitError AvatarJob) × ServiceState
  | s, [] => ([], s)
  | s, c :: cs =>
      ((submitJob s c.userId c.inputData c.now c.collab).1 ::
          (runSubmits (submitJob s c.userId c.inputData c.now c.collab).2 cs).1,
        (runSubmits (submitJob s c.userId c.inputData c.now c.collab).2 cs).2)

/-- The ids of the jobs returned by the successful calls of a run, in
order. -/
def okIds : List (Except SubmitError AvatarJob) → List String
  | [] => []
  | Except.ok j :: rs => j.id :: okIds rs
  | Except.error _ :: rs => okIds rs

/-- A service as constructed in the example usage of both templates
(src/template.js lines 128–131, src/go/template.go lines 179–182). -/
def service0 : ServiceState :=
  NewAvatarProcessingService "https://api.example.com" "your-api-token-here"

/-- A collaborator that approves every request with the reason of the
success example in the template headers. -/
def approveCollab : ModerationRequest → HttpResult :=
  fun _ => HttpResult.response 200
    (ModerationBody.wellFormed true (some "Content appears safe"))

/-- A collaborator that rejects every request with the reason of the
rejection example in the problem statement. -/
def rejectCollab : ModerationRequest → HttpResult :=
  fun _ => HttpResult.response 200
    (ModerationBody.wellFormed false (some "Contains inappropriate content"))

/-- A collaborator whose every call times out. -/
def timeoutCollab : ModerationRequest → HttpResult :=
  fun _ => HttpResult.timeout

/-- One submission that the rejecting collaborator serves. -/
def rejectCall : SubmitCall :=
  { userId := "user1", inputData := "robot", now := 0, collab := rejectCollab }

/-- The job the first submission resolves to when the collaborator
approves. -/
def jobCompletedExample : AvatarJob :=
  { id := "j", userId := "user1", status := "completed", inputData := "robot",
    outputUrl := some "https://avatars.example.com/j.png", createdAt := 0,
    errorMessage := none }

/-- The job the first submission resolves to when the collaborator
rejects with a reason. -/
def jobRejectedExample : AvatarJob :=
  { id := "j", userId := "user1", status := "rejected", inputData := "robot",
    outputUrl := some "https://avatars.example.com/j.png", createdAt := 0,
    errorMessage := some "Contains inappropriate content" }

/-- The service state after one approved submission on `service0`. -/
def stateAfterSubmit : ServiceState :=
  (submitJob service0 "user1" "robot" 0 approveCollab).2

/-- States the claimed field-presence invariant in the words of spec §3:
`outputRef` present iff status is `completed` or `rejected`, and
`errorMessage` present iff status is `failed`. -/
def fieldInvariant (j : AvatarJob) : Prop :=
  (j.outputUrl.isSome = true ↔ (j.status = "completed" ∨ j.status = "rejected")) ∧
  (j.errorMessage.isSome = true ↔ j.status = "failed")

instance (j : AvatarJob) : Decidable (fieldInvariant j) := by
  unfold fieldInvariant
  exact inferInstance

/-- The field-presence invariant that actually holds of the modelled
service: `outputRef` present iff status is `completed` or `rejected`;
`errorMessage` present whenever status is `failed`, and only when the
status is `failed` or `rejected` (a rejection records the moderation
reason when one is provided, per spec §4.1 and the §8 scenarios). -/
def amendedFieldInvariant (j : AvatarJob) : Prop :=
  (j.outputUrl.isSome = true ↔ (j.status = "completed" ∨ j.status = "rejected")) ∧
  (j.status = "failed" → j.errorMessage.isSome = true) ∧
  (j.errorMessage.isSome = true → j.status = "failed" ∨ j.status = "rejected")

/-- Distinct counters yield distinct allocated ids. -/
theorem freshId_injective : Function.Injective freshId := by
  intro a b h
  have h2 : (freshId a).data.length = (freshId b).data.length := by rw [h]
  simpa [freshId] using h2

/-- A string with a non-empty left part is non-empty. -/
theorem str_append_ne_empty (a b : String) (ha : a ≠ "") : a ++ b ≠ "" := by
  intro h
  apply ha
  have hd : (a ++ b).data = a.data ++ b.data := rfl
  rw [h] at hd
  have hnil : a.data = [] := (List.append_eq_nil.mp hd.symm).1
  exact String.ext hnil

/-- `submitJob` on an empty argument: `InvalidArgument`, state untouched. -/
theorem submitJob_invalid (s : ServiceState) (u d : String) (now : Nat)
    (collab : ModerationRequest → HttpResult) (h : u = "" ∨ d = "") :
    submitJob s u d now collab = (Except.error SubmitError.invalidArgument, s) := by
  simp only [submitJob, if_pos h]

/-- `submitJob` on non-empty arguments: the resolved job is returned and
persisted at the head of the store, the id counter advanced. -/
theorem submitJob_valid (s : ServiceState) (u d : String) (now : Nat)
    (collab : ModerationRequest → HttpResult) (hu : u ≠ "") (hd : d ≠ "") :
    submitJob s u d now collab =
      (Except.ok (finalJob s u d now collab),
        { s with
            nextId := s.nextId + 1,
            jobs := ((finalJob s u d now collab).id, finalJob s u d now collab)
              :: s.jobs }) := by
  have h : ¬(u = "" ∨ d = "") := by
    rintro (h | h) <;> [exact hu h; exact hd h]
  simp only [submitJob, if_neg h]

/-- Resolving the moderation outcome never rewrites the identity fields
of the pending job. -/
theorem processedJob_fields (p : AvatarJob) (ref : String)
    (m : Except String ModerationResponse) :
    (processedJob p ref m).id = p.id ∧ (processedJob p ref m).userId = p.userId ∧
    (processedJob p ref m).inputData = p.inputData ∧
    (processedJob p ref m).createdAt = p.createdAt := by
  cases m with
  | ok r => by_cases h : r.isApproved <;> simp [processedJob, h]
  | error msg => simp [processedJob]

/-- The resolved job carries the id allocated at submission. -/
theorem finalJob_id (s : ServiceState) (u d : String) (now : Nat)
    (collab : ModerationRequest → HttpResult) :
    (finalJob s u d now collab).id = freshId s.nextId := by
  have h := (processedJob_fields
    (AvatarJob.new (freshId s.nextId) u "pending" d none none none now)
    (generateMockAvatarUrl (freshId s.nextId))
    (callModerationApi s d u collab)).1
  simpa [finalJob, AvatarJob.new] using h

/-- An association list without the key holds no binding for it. -/
theorem lookup_eq_none_of_not_mem (l : List (String × AvatarJob)) (k : String)
    (h : ∀ j : AvatarJob, (k, j) ∉ l) : l.lookup k = none := by
  induction l with
  | nil => rfl
  | cons p t ih =>
    obtain ⟨pk, pv⟩ := p
    by_cases hk : k = pk
    · subst hk
      exact absurd (List.mem_cons_self _ _) (h pv)
    · have hb : (k == pk) = false := beq_false_of_ne hk
      simp only [List.lookup, hb]
      exact ih fun j hj => h j (List.mem_cons_of_mem _ hj)

/-- A binding found by lookup is stored in the list. -/
theorem mem_of_lookup_eq_some (l : List (String × AvatarJob)) (k : String)
    (j : AvatarJob) (h : l.lookup k = some j) : (k, j) ∈ l := by
  induction l with
  | nil => simp [List.lookup] at h
  | cons p t ih =>
    obtain ⟨pk, pv⟩ := p
    by_cases hk : k = pk
    · subst hk
      simp only [List.lookup, beq_self_eq_true] at h
      injection h with h
      subst h
      exact List.mem_cons_self _ _
    · have hb : (k == pk) = false := beq_false_of_ne hk
      simp only [List.lookup, hb] at h
      exact List.mem_cons_of_mem _ (ih h)

/-- Every failure cause the moderation call reports is non-empty. -/
theorem callModerationApi_error_ne_empty (s : ServiceState) (content userId : String)
    (collab : ModerationRequest → HttpResult) (msg : String)
    (h : callModerationApi s content userId collab = Except.error msg) : msg ≠ "" := by
  unfold callModerationApi at h
  cases hc : collab { content := content, user_id := userId } with
  | timeout =>
    rw [hc] at h
    injection h with h
    subst h
    decide
  | transportError e =>
    rw [hc] at h
    injection h with h
    subst h
    exact str_append_ne_empty _ _ (by decide)
  | response code body =>
    rw [hc] at h
    dsimp only at h
    split at h
    · cases body with
      | wellFormed approved reason => simp at h
      | malformed raw =>
        injection h with h
        subst h
        decide
    · injection h with h
      subst h
      exact str_append_ne_empty _ _ (by decide)

/-- C1: For every valid submission on which the moderation collaborator
responds successfully, `submit` returns a Job whose status reflects the
verdict: with `approved=true` the Job is `completed` with the generated
`outputRef` kept; with `approved=false` it is `rejected` with the
`outputRef` kept and `errorMessage` set to the provided reason. -/
theorem submit_moderation_verdict (s : ServiceState) (u d : String) (now : Nat)
    (collab : ModerationRequest → HttpResult) (r : ModerationResponse)
    (hu : u ≠ "") (hd : d ≠ "")
    (hm : callModerationApi s d u collab = Except.ok r) :
    (submitJob s u d now collab).1 =
      Except.ok
        (if r.isApproved then
          { id := freshId s.nextId, userId := u, status := "completed",
            inputData := d,
            outputUrl := some (generateMockAvatarUrl (freshId s.nextId)),
            createdAt := now, errorMessage := none }
        else
          { id := freshId s.nextId, userId := u, status := "rejected",
            inputData := d,
            outputUrl := some (generateMockAvatarUrl (freshId s.nextId)),
            createdAt := now, errorMessage := r.reason }) := by
  rw [submitJob_valid s u d now collab hu hd]
  by_cases ha : r.isApproved <;>
    simp [finalJob, hm, processedJob, AvatarJob.new, ha]

/-- C1 witness: the approved scenario of spec §8 on a concrete service. -/
theorem submit_moderation_verdict_witness :
    ("user1" : String) ≠ "" ∧ ("robot" : String) ≠ "" ∧
    callModerationApi service0 "robot" "user1" approveCollab =
      Except.ok { isApproved := true, reason := some "Content appears safe" } ∧
    (submitJob service0 "user1" "robot" 0 approveCollab).1 =
      Except.ok jobCompletedExample :=
  ⟨by decide, by decide, rfl,
    submit_moderation_verdict service0 "user1" "robot" 0 approveCollab
      { isApproved := true, reason := some "Content appears safe" }
      (by decide) (by decide) rfl⟩

/-- C2: For every valid submission on which the moderation collaborator
call fails (timeout, transport error, non-success HTTP status, or
unparseable response), `submit` still returns normally — the result is a
Job, no error escapes — and the Job has `status=failed` with a non-empty
`errorMessage`. -/
theorem submit_absorbs_moderation_failure (s : ServiceState) (u d : String)
    (now : Nat) (collab : ModerationRequest → HttpResult) (msg : String)
    (hu : u ≠ "") (hd : d ≠ "")
    (hm : callModerationApi s d u collab = Except.error msg) :
    (submitJob s u d now collab).1 =
      Except.ok
        { id := freshId s.nextId, userId := u, status := "failed",
          inputData := d, outputUrl := none, createdAt := now,
          errorMessage := some msg } ∧ msg ≠ "" := by
  refine ⟨?_, callModerationApi_error_ne_empty s d u collab msg hm⟩
  rw [submitJob_valid s u d now collab hu hd]
  simp [finalJob, hm, processedJob, AvatarJob.new]

/-- C2 witness: the timeout scenario of spec §8 on a concrete service. -/
theorem submit_absorbs_moderation_failure_witness :
    callModerationApi service0 "robot" "user1" timeoutCollab =
      Except.error "moderation request timed out" ∧
    ((submitJob service0 "user1" "robot" 0 timeoutCollab).1 =
      Except.ok
        { id := freshId service0.nextId, userId := "user1", status := "failed",
          inputData := "robot", outputUrl := none, createdAt := 0,
          errorMessage := some "moderation request timed out" } ∧
      ("moderation request timed out" : String) ≠ "") :=
  ⟨rfl,
    submit_absorbs_moderation_failure service0 "user1" "robot" 0 timeoutCollab
      "moderation request timed out" (by decide) (by decide) rfl⟩

/-- C3: For every call of `submit` in which `userId` or `inputData` is
the empty string, `submit` fails with `InvalidArgument` and no Job is
created — the whole service state, in particular the job store, is
unchanged. -/
theorem submit_invalid_argument (s : ServiceState) (u d : String) (now : Nat)
    (collab : ModerationRequest → HttpResult) (h : u = "" ∨ d = "") :
    submitJob s u d now collab = (Except.error SubmitError.invalidArgument, s) :=
  submitJob_invalid s u d now collab h

/-- C3 witness: the `submit("", "prompt")` example of spec §8. -/
theorem submit_invalid_argument_witness :
    submitJob service0 "" "prompt" 0 approveCollab =
      (Except.error SubmitError.invalidArgument, service0) :=
  submit_invalid_argument service0 "" "prompt" 0 approveCollab (Or.inl rfl)

/-- C4: For every valid submission, `getStatus(job.id)` immediately
after `submit` returns a Job equal in all fields to the Job `submit`
returned. -/
theorem getStatus_after_submit (s s' : ServiceState) (u d : String) (now : Nat)
    (collab : ModerationRequest → HttpResult) (j : AvatarJob)
    (h : submitJob s u d now collab = (Except.ok j, s')) :
    (getJobStatus s' j.id).1 = some j := by
  by_cases hv : u = "" ∨ d = ""
  · rw [submitJob_invalid s u d now collab hv] at h
    exact absurd (congrArg Prod.fst h) (by simp)
  · have hu : u ≠ "" := fun he => hv (Or.inl he)
    have hd : d ≠ "" := fun he => hv (Or.inr he)
    rw [submitJob_valid s u d now collab hu hd] at h
    rw [Prod.ext_iff] at h
    obtain ⟨h1, h2⟩ := h
    dsimp only at h1 h2
    injection h1 with h1
    subst h1
    subst h2
    simp [getJobStatus, List.lookup]

/-- C4 witness: reading back the approved submission on a concrete
service. -/
theorem getStatus_after_submit_witness :
    (getJobStatus stateAfterSubmit jobCompletedExample.id).1 = some jobCompletedExample :=
  getStatus_after_submit service0 stateAfterSubmit "user1" "robot" 0 approveCollab
    jobCompletedExample rfl

/-- C5: `getStatus` is a pure read with no side effects — the state it
returns is the argument state unchanged; on a `jobId` with no stored job
it signals NotFound (`none`), and whenever it does return a Job, that
Job is exactly one held in the store (never a half-built one). -/
theorem getStatus_pure_notFound (s : ServiceState) (jobId : String) :
    (getJobStatus s jobId).2 = s ∧
    ((∀ j : AvatarJob, (jobId, j) ∉ s.jobs) → (getJobStatus s jobId).1 = none) ∧
    (∀ j : AvatarJob, (getJobStatus s jobId).1 = some j → (jobId, j) ∈ s.jobs) := by
  refine ⟨rfl, ?_, ?_⟩
  · intro h
    exact lookup_eq_none_of_not_mem s.jobs jobId h
  · intro j h
    exact mem_of_lookup_eq_some s.jobs jobId j h

/-- C5 witness: an unknown id on the freshly constructed service. -/
theorem getStatus_pure_notFound_witness :
    (getJobStatus service0 "missing").2 = service0 ∧
    (getJobStatus service0 "missing").1 = none :=
  ⟨(getStatus_pure_notFound service0 "missing").1,
    (getStatus_pure_notFound service0 "missing").2.1
      (by simp [service0, NewAvatarProcessingService])⟩

/-- The ids of the successful results of a run are all allocated at or
above the starting counter. -/
theorem okIds_run_ge (cs : List SubmitCall) (s : ServiceState) :
    ∀ i ∈ okIds (runSubmits s cs).1, ∃ k, s.nextId ≤ k ∧ i = freshId k := by
  induction cs generalizing s with
  | nil => intro i hi; simp [runSubmits, okIds] at hi
  | cons c cs ih =>
    intro i hi
    by_cases hv : c.userId = "" ∨ c.inputData = ""
    · rw [runSubmits] at hi
      rw [submitJob_invalid s c.userId c.inputData c.now c.collab hv] at hi
      rw [show okIds (Except.error SubmitError.invalidArgument :: (runSubmits s cs).1)
          = okIds (runSubmits s cs).1 from rfl] at hi
      exact ih s i hi
    · have hu : c.userId ≠ "" := fun he => hv (Or.inl he)
      have hd : c.inputData ≠ "" := fun he => hv (Or.inr he)
      rw [runSubmits] at hi
      rw [submitJob_valid s c.userId c.inputData c.now c.collab hu hd] at hi
      rw [show okIds (Except.ok (finalJob s c.userId c.inputData c.now c.collab) ::
            (runSubmits _ cs).1)
          = (finalJob s c.userId c.inputData c.now c.collab).id ::
            okIds (runSubmits _ cs).1 from rfl] at hi
      rcases List.mem_cons.mp hi with hhead | htail
      · exact ⟨s.nextId, Nat.le_refl _, by rw [hhead, finalJob_id]⟩
      · obtain ⟨k, hk, hik⟩ := ih _ i htail
        dsimp only at hk
        exact ⟨k, by omega, hik⟩

/-- C6: For every sequence of `submit` calls from any service state,
each successful call returns a Job whose id differs from the id of
every Job returned by an earlier call of the run: the collected ids
have no duplicate. -/
theorem submit_ids_unique (s : ServiceState) (cs : List SubmitCall) :
    (okIds (runSubmits s cs).1).Nodup := by
  induction cs generalizing s with
  | nil => simp [runSubmits, okIds]
  | cons c cs ih =>
    by_cases hv : c.userId = "" ∨ c.inputData = ""
    · rw [runSubmits, submitJob_invalid s c.userId c.inputData c.now c.collab hv]
      exact ih s
    · have hu : c.userId ≠ "" := fun he => hv (Or.inl he)
      have hd : c.inputData ≠ "" := fun he => hv (Or.inr he)
      rw [runSubmits, submitJob_valid s c.userId c.inputData c.now c.collab hu hd]
      refine List.nodup_cons.mpr ⟨?_, ih _⟩
      intro hmem
      obtain ⟨k, hk, hik⟩ := okIds_run_ge cs _ _ hmem
      dsimp only at hk
      rw [finalJob_id] at hik
      have : s.nextId = k := freshId_injective hik
      omega

/-- The job a valid submission resolves to satisfies the amended
field-presence invariant in every moderation outcome. -/
theorem finalJob_amended_inv (s : ServiceState) (u d : String) (now : Nat)
    (collab : ModerationRequest → HttpResult) :
    amendedFieldInvariant (finalJob s u d now collab) := by
  unfold finalJob amendedFieldInvariant
  cases hm : callModerationApi s d u collab with
  | ok r => by_cases ha : r.isApproved <;> simp [processedJob, AvatarJob.new, ha]
  | error msg => simp [processedJob, AvatarJob.new]

/-- C7 counterexample: a submission the collaborator rejects with a
reason yields an observable Job (returned by `submit` and stored) with
`status=rejected` and `errorMessage` present, so the claimed invariant
"`errorMessage` present iff status is `failed`" is false of it. -/
theorem field_invariant_fails_on_rejection :
    (submitJob service0 "user1" "robot" 0 rejectCollab).1 =
      Except.ok jobRejectedExample ∧
    ¬ fieldInvariant jobRejectedExample :=
  ⟨rfl, by decide⟩

/-- C7 amended: every Job observable after any sequence of submissions
from a state whose store satisfies the amended invariant — every Job a
call returned and every Job held in the store (hence every Job
`getStatus` can return) — satisfies it: `outputRef` present iff status
is `completed` or `rejected`; `errorMessage` present whenever status is
`failed` and only when it is `failed` or `rejected`. -/
theorem amended_field_invariant_reachable (s : ServiceState) (cs : List SubmitCall)
    (h : ∀ p ∈ s.jobs, amendedFieldInvariant p.2) :
    (∀ res ∈ (runSubmits s cs).1, ∀ j : AvatarJob,
      res = Except.ok j → amendedFieldInvariant j) ∧
    (∀ p ∈ (runSubmits s cs).2.jobs, amendedFieldInvariant p.2) := by
  induction cs generalizing s with
  | nil =>
    refine ⟨?_, ?_⟩
    · intro res hres j hj
      simp [runSubmits] at hres
    · intro p hp
      exact h p (by simpa [runSubmits] using hp)
  | cons c cs ih =>
    by_cases hv : c.userId = "" ∨ c.inputData = ""
    · rw [runSubmits, submitJob_invalid s c.userId c.inputData c.now c.collab hv]
      obtain ⟨ih1, ih2⟩ := ih s h
      refine ⟨?_, ih2⟩
      intro res hres j hj
      rcases List.mem_cons.mp hres with hhead | htail
      · rw [hhead] at hj
        exact absurd hj (by simp)
      · exact ih1 res htail j hj
    · have hu : c.userId ≠ "" := fun he => hv (Or.inl he)
      have hd : c.inputData ≠ "" := fun he => hv (Or.inr he)
      rw [runSubmits, submitJob_valid s c.userId c.inputData c.now c.collab hu hd]
      have hstore : ∀ p ∈ ({ s with
            nextId := s.nextId + 1,
            jobs := ((finalJob s c.userId c.inputData c.now c.collab).id,
              finalJob s c.userId c.inputData c.now c.collab) :: s.jobs } :
              ServiceState).jobs,
          amendedFieldInvariant p.2 := by
        intro p hp
        rcases List.mem_cons.mp hp with hhead | htail
        · rw [hhead]
          exact finalJob_amended_inv s c.userId c.inputData c.now c.collab
        · exact h p htail
      obtain ⟨ih1, ih2⟩ := ih _ hstore
      refine ⟨?_, ih2⟩
      intro res hres j hj
      rcases List.mem_cons.mp hres with hhead | htail
      · rw [hhead] at hj
        injection hj with hj
        rw [← hj]
        exact finalJob_amended_inv s c.userId c.inputData c.now c.collab
      · exact ih1 res htail j hj

/-- C7 witness: the rejected job of the counterexample run satisfies the
amended invariant, obtained from the reachability theorem on a concrete
one-call run. -/
theorem amended_field_invariant_witness :
    amendedFieldInvariant jobRejectedExample :=
  (amended_field_invariant_reachable service0 [rejectCall]
      (by simp [service0, NewAvatarProcessingService])).2
    ("j", jobRejectedExample) (by decide)

/-- C8: Every collaborator success response of the shape
`{ approved: boolean, reason?: string }` (a 2xx response whose body is
well-formed) is parsed by the moderation call into a
`ModerationResponse` whose approval flag equals the `approved` field and
whose reason equals the `reason` field. -/
theorem callModerationApi_parses_success (s : ServiceState)
    (content userId : String) (collab : ModerationRequest → HttpResult)
    (code : Nat) (approved : Bool) (reason : Option String)
    (hc : collab { content := content, user_id := userId } =
      HttpResult.response code (ModerationBody.wellFormed approved reason))
    (hcode : 200 ≤ code ∧ code < 300) :
    callModerationApi s content userId collab =
      Except.ok { isApproved := approved, reason := reason } := by
  unfold callModerationApi
  rw [hc]
  dsimp only
  rw [if_pos hcode]

/-- C8 witness: the success example of the template headers. -/
theorem callModerationApi_parses_success_witness :
    approveCollab { content := "robot", user_id := "user1" } =
      HttpResult.response 200 (ModerationBody.wellFormed true (some "Content appears safe")) ∧
    callModerationApi service0 "robot" "user1" approveCollab =
      Except.ok { isApproved := true, reason := some "Content appears safe" } :=
  ⟨rfl,
    callModerationApi_parses_success service0 "robot" "user1" approveCollab 200 true
      (some "Content appears safe") rfl (by decide)⟩

/-- C9: The mock `outputRef` is a deterministic pure function of the job
id alone — equal ids receive equal references — the reference is the
templated string containing the id, and the `outputRef` a submission
stores is exactly that function of its own Job id (when present at all). -/
theorem mock_url_pure_function_of_id (s : ServiceState) (u d : String)
    (now : Nat) (collab : ModerationRequest → HttpResult) (j : AvatarJob)
    (id1 id2 : String) (hid : id1 = id2)
    (hj : (submitJob s u d now collab).1 = Except.ok j) :
    generateMockAvatarUrl id1 = generateMockAvatarUrl id2 ∧
    generateMockAvatarUrl id1 = "https://avatars.example.com/" ++ id1 ++ ".png" ∧
    (j.outputUrl = none ∨ j.outputUrl = some (generateMockAvatarUrl j.id)) := by
  refine ⟨by rw [hid], rfl, ?_⟩
  by_cases hv : u = "" ∨ d = ""
  · rw [submitJob_invalid s u d now collab hv] at hj
    exact absurd hj (by simp)
  · have hu : u ≠ "" := fun he => hv (Or.inl he)
    have hd : d ≠ "" := fun he => hv (Or.inr he)
    rw [submitJob_valid s u d now collab hu hd] at hj
    dsimp only at hj
    injection hj with hj
    subst hj
    unfold finalJob
    cases hm : callModerationApi s d u collab with
    | ok r => by_cases ha : r.isApproved <;> simp [processedJob, AvatarJob.new, ha]
    | error msg => simp [processedJob, AvatarJob.new]

/-- C9 witness: the approved submission carries the templated reference
of its own id. -/
theorem mock_url_pure_function_of_id_witness :
    generateMockAvatarUrl "j" = generateMockAvatarUrl "j" ∧
    generateMockAvatarUrl "j" = "https://avatars.example.com/" ++ "j" ++ ".png" ∧
    (jobCompletedExample.outputUrl = none ∨
      jobCompletedExample.outputUrl = some (generateMockAvatarUrl jobCompletedExample.id)) :=
  mock_url_pure_function_of_id service0 "user1" "robot" 0 approveCollab
    jobCompletedExample "j" "j" rfl rfl

/-- C10: The Job constructor accepts any status string without
validating it against the four-value enum, sets `createdAt` to the
current time when none is supplied, leaves the output reference and
`errorMessage` unset unless explicitly passed (the Go constructor always
leaves them unset), and so a Job with an out-of-enum status can be
constructed. -/
theorem job_constructor_no_validation (id userId status inputData : String)
    (outputUrl : Option String) (createdAt : Option Nat)
    (errorMessage : Option String) (now : Nat) :
    (AvatarJob.new id userId status inputData outputUrl createdAt errorMessage now).status
        = status ∧
    (createdAt = none →
      (AvatarJob.new id userId status inputData outputUrl createdAt errorMessage now).createdAt
        = now) ∧
    AvatarJob.new id userId status inputData none none none now =
      { id := id, userId := userId, status := status, inputData := inputData,
        outputUrl := none, createdAt := now, errorMessage := none } ∧
    NewAvatarJob id userId status inputData now =
      { id := id, userId := userId, status := status, inputData := inputData,
        outputUrl := none, createdAt := now, errorMessage := none } ∧
    (AvatarJob.new "job1" "u1" "bogus" "d1" none none none 7).status ∉
      (["pending", "completed", "rejected", "failed"] : List String) := by
  refine ⟨rfl, ?_, rfl, rfl, by decide⟩
  intro h
  subst h
  rfl

/-- C10 witness: a concrete out-of-enum construction with defaulted
timestamp. -/
theorem job_constructor_no_validation_witness :
    (AvatarJob.new "a1" "u1" "weird" "d1" none none none 5).status = "weird" ∧
    (AvatarJob.new "a1" "u1" "weird" "d1" none none none 5).createdAt = 5 :=
  ⟨(job_constructor_no_validation "a1" "u1" "weird" "d1" none none none 5).1,
    (job_constructor_no_validation "a1" "u1" "weird" "d1" none none none 5).2.1 rfl⟩
